import Mathlib

/-!
Verification of the FileMaker ODBC gateway (`filemaker_mcp_server.py`).

The Python source is shallowly embedded: the per-database connection
registry (`get_connection`), the query executor
(`FileMakerConnection.execute_query`, which bounds results with
`cursor.fetchmany(limit)` and builds each row as `dict(zip(columns, row))`),
the `call_tool` operation router with its nine handlers, and the
`read_resource` schema reader.  Driver behaviour (pyodbc) is a parameter
`Env`; observable side effects (connect attempts, SQL text handed to the
driver) are threaded through an explicit `World` state.
-/

namespace FMGateway

/-- JSON-ish values: the scalar/object/array payloads that flow through the
MCP tool arguments and the response envelopes. -/
inductive JVal where
  | str (s : String)
  | num (n : Int)
  | bool (b : Bool)
  | null
  | arr (elems : List JVal)
  | obj (fields : List (String × JVal))

/-- Coercion used where Python interpolates an argument into a string
(f-strings); tool arguments of interest are strings. -/
def JVal.asStr : JVal → String
  | .str s => s
  | _ => ""

/-- Lookup in a Python-dict modelled as an association list (keys unique
by construction via `pyInsert`). -/
def pyGet {α : Type} (d : List (String × α)) (k : String) : Option α :=
  (d.find? (fun p => p.1 == k)).map Prod.snd

/-- Python `d[k] = v`: replace the value in place if the key exists,
otherwise append at the end (insertion order preserved). -/
def pyInsert {α : Type} : List (String × α) → String → α → List (String × α)
  | [], k, v => [(k, v)]
  | p :: ps, k, v => if p.1 = k then (k, v) :: ps else p :: pyInsert ps k v

/-- Python `dict(pairs)`: fold the pairs into an empty dict, so a later
occurrence of a key overwrites an earlier one. -/
def pyDict {α : Type} (l : List (String × α)) : List (String × α) :=
  l.foldl (fun d p => pyInsert d p.1 p.2) []

/-- The value of the last occurrence of key `k` in a pair list. -/
def lastVal {α : Type} (l : List (String × α)) (k : String) : Option α :=
  ((l.filter (fun p => p.1 == k)).getLast?).map Prod.snd

/-- Python `sep.join(parts)`. -/
def strJoin (sep : String) : List String → String
  | [] => ""
  | [x] => x
  | x :: y :: xs => x ++ sep ++ strJoin sep (y :: xs)

/-- One result row: column name to value, in driver column order
(`dict(zip(columns, row))`). -/
abbrev Row := List (String × JVal)

/-- Tool-call arguments: the parsed JSON object handed to `call_tool`. -/
abbrev Args := List (String × JVal)

/-- Observable state of the gateway process: the connection registry
(`connections` dict, database name to connection id), the id counter for
freshly created connections, and traces of the externally visible side
effects (driver connect attempts; SQL statements handed to a cursor,
with the database they were run against and the bound parameters). -/
structure World where
  registry : List (String × Nat)
  nextId : Nat
  connectAttempts : List String
  executedSQL : List (String × String × Option (List JVal))

/-- Behaviour of the external ODBC driver and the databases behind it:
whether connecting to a database succeeds, what the catalog APIs return,
and what an executed statement yields (column descriptors and raw rows). -/
structure Env where
  connect : String → Except String Unit
  tablesOf : String → Except String (List String)
  columnsOf : String → String → Except String JVal
  runSQL : String → String → Option (List JVal) → Except String (List String × List (List JVal))
  runUpdate : String → String → List JVal → Except String Int

/-- The fixed catalog of known database names (`FILEMAKER_DATABASES`). -/
def FILEMAKER_DATABASES : List String :=
  ["Appointments", "CLOrders", "Dispenses", "Email", "Lookups", "Open",
   "OpenAdmin", "OpenMngr", "Patients", "ProdPrices", "Timecards", "Transactions"]

/-- `get_connection(database)`: return the cached connection if the name is
in the registry; otherwise attempt a driver connect and, only on success,
record the new connection under that name. -/
def get_connection (env : Env) (db : String) (w : World) : Except String Nat × World :=
  match pyGet w.registry db with
  | some cid => (Except.ok cid, w)
  | none =>
    let w1 := { w with connectAttempts := w.connectAttempts ++ [db] }
    match env.connect db with
    | Except.ok _ =>
        (Except.ok w1.nextId,
         { w1 with registry := w1.registry ++ [(db, w1.nextId)], nextId := w1.nextId + 1 })
    | Except.error e => (Except.error e, w1)

/-- Python truthiness of the `params` tuple: an empty tuple executes the
statement without parameters (`if params: ... else: ...`). -/
def normParams : Option (List JVal) → Option (List JVal)
  | some [] => none
  | p => p

/-- `FileMakerConnection.execute_query(query, params, limit)`: hand the
statement text to the driver verbatim, read the column descriptors, fetch
at most `limit` rows (`cursor.fetchmany(limit)`, since the FileMaker
dialect has no LIMIT clause), and build each row as
`dict(zip(columns, row))`. -/
def execute_query (env : Env) (db query : String) (params : Option (List JVal))
    (limit : Nat) (w : World) : Except String (List Row) × World :=
  let p := normParams params
  let w1 := { w with executedSQL := w.executedSQL ++ [(db, query, p)] }
  match env.runSQL db query p with
  | Except.error e => (Except.error e, w1)
  | Except.ok (cols, rows) =>
      (Except.ok ((rows.take limit).map (fun r => pyDict (cols.zip r))), w1)

/-- `FileMakerConnection.execute_update(query, params)`: execute, commit,
return the affected row count. -/
def execute_update (env : Env) (db query : String) (params : List JVal)
    (w : World) : Except String Int × World :=
  let p := normParams (some params)
  let w1 := { w with executedSQL := w.executedSQL ++ [(db, query, p)] }
  (env.runUpdate db query params, w1)

/-- `arguments[k]`: a missing key raises `KeyError`, whose `str()` is the
quoted key name. -/
def getArg (args : Args) (k : String) : Except String JVal :=
  match pyGet args k with
  | some v => Except.ok v
  | none => Except.error ("'" ++ k ++ "'")

/-- `arguments.get(k, d)` for the integer `limit` arguments. -/
def getNatD (args : Args) (k : String) (d : Nat) : Nat :=
  match pyGet args k with
  | some (.num n) => n.toNat
  | _ => d

/-- `arguments.get(k)` followed by a Python truthiness test (`if x:`):
absent keys and empty strings both count as "not supplied". -/
def getTruthyStr (args : Args) (k : String) : Option String :=
  match pyGet args k with
  | some (.str s) => if s.isEmpty then none else some s
  | _ => none

/-- The success envelope used by `query`, `search_patients`,
`get_appointments` and `get_transactions`. -/
def queryEnvelope (rows : List Row) : JVal :=
  .obj [("success", .bool true), ("row_count", .num rows.length),
        ("data", .arr (rows.map (fun r => .obj r)))]

/-- The fields of a JSON-object argument (`data`), in order. -/
def JVal.objFields : JVal → List (String × JVal)
  | .obj f => f
  | _ => []

/-- The `query` branch of `call_tool`. -/
def handleQuery (env : Env) (args : Args) (w : World) : Except String JVal × World :=
  match getArg args "database" with
  | .error e => (.error e, w)
  | .ok dbv =>
    match getArg args "sql" with
    | .error e => (.error e, w)
    | .ok sqlv =>
      let limit := getNatD args "limit" 100
      let (rc, w1) := get_connection env dbv.asStr w
      match rc with
      | .error e => (.error e, w1)
      | .ok _ =>
        match execute_query env dbv.asStr sqlv.asStr none limit w1 with
        | (.error e, w2) => (.error e, w2)
        | (.ok rows, w2) => (.ok (queryEnvelope rows), w2)

/-- The `list_tables` branch of `call_tool`. -/
def handleListTables (env : Env) (args : Args) (w : World) : Except String JVal × World :=
  match getArg args "database" with
  | .error e => (.error e, w)
  | .ok dbv =>
    let (rc, w1) := get_connection env dbv.asStr w
    match rc with
    | .error e => (.error e, w1)
    | .ok _ =>
      match env.tablesOf dbv.asStr with
      | .error e => (.error e, w1)
      | .ok ts =>
          (.ok (.obj [("success", .bool true), ("database", .str dbv.asStr),
                      ("tables", .arr (ts.map JVal.str))]), w1)

/-- The `describe_table` branch of `call_tool`. -/
def handleDescribeTable (env : Env) (args : Args) (w : World) : Except String JVal × World :=
  match getArg args "database" with
  | .error e => (.error e, w)
  | .ok dbv =>
    match getArg args "table" with
    | .error e => (.error e, w)
    | .ok tv =>
      let (rc, w1) := get_connection env dbv.asStr w
      match rc with
      | .error e => (.error e, w1)
      | .ok _ =>
        match env.columnsOf dbv.asStr tv.asStr with
        | .error e => (.error e, w1)
        | .ok cols =>
            (.ok (.obj [("success", .bool true), ("database", .str dbv.asStr),
                        ("table", .str tv.asStr), ("columns", cols)]), w1)

/-- The `insert_record` branch of `call_tool`:
`INSERT INTO <table> (<keys>) VALUES (<placeholders>)`, values bound
positionally in mapping order. -/
def handleInsertRecord (env : Env) (args : Args) (w : World) : Except String JVal × World :=
  match getArg args "database" with
  | .error e => (.error e, w)
  | .ok dbv =>
    match getArg args "table" with
    | .error e => (.error e, w)
    | .ok tv =>
      match getArg args "data" with
      | .error e => (.error e, w)
      | .ok datav =>
        let fields := datav.objFields
        let columns := strJoin ", " (fields.map Prod.fst)
        let placeholders := strJoin ", " (fields.map (fun _ => "?"))
        let values := fields.map Prod.snd
        let sql := "INSERT INTO " ++ tv.asStr ++ " (" ++ columns ++ ") VALUES (" ++ placeholders ++ ")"
        let (rc, w1) := get_connection env dbv.asStr w
        match rc with
        | .error e => (.error e, w1)
        | .ok _ =>
          match execute_update env dbv.asStr sql values w1 with
          | (.error e, w2) => (.error e, w2)
          | (.ok affected, w2) =>
              (.ok (.obj [("success", .bool true),
                          ("message", .str ("Inserted " ++ toString affected ++ " record(s)"))]), w2)

/-- The `update_record` branch of `call_tool`:
`UPDATE <table> SET k1 = ?, ... WHERE <raw where-clause>`. -/
def handleUpdateRecord (env : Env) (args : Args) (w : World) : Except String JVal × World :=
  match getArg args "database" with
  | .error e => (.error e, w)
  | .ok dbv =>
    match getArg args "table" with
    | .error e => (.error e, w)
    | .ok tv =>
      match getArg args "data" with
      | .error e => (.error e, w)
      | .ok datav =>
        match getArg args "where" with
        | .error e => (.error e, w)
        | .ok wherev =>
          let fields := datav.objFields
          let setClause := strJoin ", " (fields.map (fun p => p.1 ++ " = ?"))
          let values := fields.map Prod.snd
          let sql := "UPDATE " ++ tv.asStr ++ " SET " ++ setClause ++ " WHERE " ++ wherev.asStr
          let (rc, w1) := get_connection env dbv.asStr w
          match rc with
          | .error e => (.error e, w1)
          | .ok _ =>
            match execute_update env dbv.asStr sql values w1 with
            | (.error e, w2) => (.error e, w2)
            | (.ok affected, w2) =>
                (.ok (.obj [("success", .bool true),
                            ("message", .str ("Updated " ++ toString affected ++ " record(s)"))]), w2)

/-- One iteration of the `list_all_databases` loop: try to connect and list
tables; any failure is captured in that database's own entry. -/
def listAllStep (env : Env) (acc : List (String × JVal) × World) (db : String) :
    List (String × JVal) × World :=
  let (info, w) := acc
  let (rc, w1) := get_connection env db w
  match rc with
  | .error e => (info ++ [(db, JVal.obj [("error", .str e)])], w1)
  | .ok _ =>
    match env.tablesOf db with
    | .error e => (info ++ [(db, JVal.obj [("error", .str e)])], w1)
    | .ok ts =>
        (info ++ [(db, JVal.obj [("tables", .arr (ts.map JVal.str)),
                                 ("count", .num ts.length)])], w1)

/-- The `list_all_databases` branch of `call_tool`: fan out over the fixed
catalog, isolating per-database failures. -/
def handleListAllDatabases (env : Env) (w : World) : Except String JVal × World :=
  let r := FILEMAKER_DATABASES.foldl (listAllStep env) ([], w)
  (.ok (.obj [("success", .bool true), ("databases", .obj r.1)]), r.2)

/-- The SQL text built by the `search_patients` branch (fixed column list,
pinned `Patients` table, caller-selected field, `LIKE ?` predicate),
reproducing the triple-quoted literal of the source. -/
def searchPatientsSQL (field : String) : String :=
  "SELECT \"Last Name\", \"First Name\", \"Middle Initial\",\n                         \"Street Address\", \"City\", \"State\", \"Zip\",\n                         \"Home Phone\", \"Work Phone\", \"birth date\"\n                         FROM Patients WHERE " ++ field ++ " LIKE ?"

/-- The bound parameter built by `search_patients`: the search term wrapped
as `%term%`, with no escaping of the term itself. -/
def searchPatientsParam (term : String) : String := "%" ++ term ++ "%"

/-- The `search_patients` branch of `call_tool`. -/
def handleSearchPatients (env : Env) (args : Args) (w : World) : Except String JVal × World :=
  match getArg args "search_term" with
  | .error e => (.error e, w)
  | .ok termv =>
    let field := match pyGet args "field" with
      | some v => v.asStr
      | none => "\"Last Name\""
    let limit := getNatD args "limit" 50
    let sql := searchPatientsSQL field
    let (rc, w1) := get_connection env "Patients" w
    match rc with
    | .error e => (.error e, w1)
    | .ok _ =>
      match execute_query env "Patients" sql
          (some [.str (searchPatientsParam termv.asStr)]) limit w1 with
      | (.error e, w2) => (.error e, w2)
      | (.ok rows, w2) => (.ok (queryEnvelope rows), w2)

/-- The `get_appointments` branch of `call_tool`: equality or `BETWEEN` on
`dateappt`, optional patient-id equality, fixed `ORDER BY timeappt`. -/
def handleGetAppointments (env : Env) (args : Args) (w : World) : Except String JVal × World :=
  match getArg args "date" with
  | .error e => (.error e, w)
  | .ok datev =>
    let end_date := getTruthyStr args "end_date"
    let patient_id := getTruthyStr args "patient_id"
    let limit := getNatD args "limit" 100
    let sp0 : String × List JVal :=
      match end_date with
      | some ed => ("SELECT * FROM Appointments WHERE dateappt BETWEEN ? AND ?", [datev, .str ed])
      | none => ("SELECT * FROM Appointments WHERE dateappt = ?", [datev])
    let sp1 : String × List JVal :=
      match patient_id with
      | some pid => (sp0.1 ++ " AND \"patient id#\" = ?", sp0.2 ++ [.str pid])
      | none => sp0
    let sql := sp1.1 ++ " ORDER BY timeappt"
    let (rc, w1) := get_connection env "Appointments" w
    match rc with
    | .error e => (.error e, w1)
    | .ok _ =>
      match execute_query env "Appointments" sql (some sp1.2) limit w1 with
      | (.error e, w2) => (.error e, w2)
      | (.ok rows, w2) => (.ok (queryEnvelope rows), w2)

/-- The `get_transactions` branch of `call_tool`: zero or more AND-joined
predicates assembled conditionally, in the order patient id, start date,
end date; no predicates at all yields an unfiltered scan. -/
def handleGetTransactions (env : Env) (args : Args) (w : World) : Except String JVal × World :=
  let patient_id := getTruthyStr args "patient_id"
  let start_date := getTruthyStr args "start_date"
  let end_date := getTruthyStr args "end_date"
  let limit := getNatD args "limit" 100
  let conds :=
    (match patient_id with | some _ => ["\"patient id#\" = ?"] | none => []) ++
    (match start_date with | some _ => ["\"trans date\" >= ?"] | none => []) ++
    (match end_date with | some _ => ["\"trans date\" <= ?"] | none => [])
  let params : List JVal :=
    (match patient_id with | some p => [.str p] | none => []) ++
    (match start_date with | some s => [.str s] | none => []) ++
    (match end_date with | some e => [.str e] | none => [])
  let sql := "SELECT * FROM Transactions" ++
    (if conds.isEmpty then "" else " WHERE " ++ strJoin " AND " conds)
  let (rc, w1) := get_connection env "Transactions" w
  match rc with
  | .error e => (.error e, w1)
  | .ok _ =>
    match execute_query env "Transactions" sql
        (if params.isEmpty then none else some params) limit w1 with
    | (.error e, w2) => (.error e, w2)
    | (.ok rows, w2) => (.ok (queryEnvelope rows), w2)

/-- The result of one tool call: the MCP `CallToolResult`'s error flag and
the JSON document placed in its text content. -/
structure CTResult where
  isError : Bool
  body : JVal

/-- The router's outer `try/except`: a raised exception becomes a
`success:false` envelope flagged `isError`. -/
def wrap : Except String JVal × World → CTResult × World
  | (.ok v, w) => ({ isError := false, body := v }, w)
  | (.error e, w) =>
      ({ isError := true,
         body := .obj [("success", .bool false), ("error", .str e)] }, w)

/-- The fixed operation catalog of the router. -/
def opCatalog : List String :=
  ["query", "list_tables", "describe_table", "insert_record", "update_record",
   "list_all_databases", "search_patients", "get_appointments", "get_transactions"]

/-- Required arguments declared by each operation's input schema. -/
def requiredArgs : String → List String
  | "query" => ["database", "sql"]
  | "list_tables" => ["database"]
  | "describe_table" => ["database", "table"]
  | "insert_record" => ["database", "table", "data"]
  | "update_record" => ["database", "table", "data", "where"]
  | "search_patients" => ["search_term"]
  | "get_appointments" => ["date"]
  | _ => []

/-- `call_tool(name, arguments)`: the if/elif dispatch over the fixed
catalog; an unrecognized name yields a bare `{error: ...}` document with
the error flag set, outside the `success:false` wrapping. -/
def callTool (env : Env) (name : String) (args : Args) (w : World) : CTResult × World :=
  if name = "query" then wrap (handleQuery env args w)
  else if name = "list_tables" then wrap (handleListTables env args w)
  else if name = "describe_table" then wrap (handleDescribeTable env args w)
  else if name = "insert_record" then wrap (handleInsertRecord env args w)
  else if name = "update_record" then wrap (handleUpdateRecord env args w)
  else if name = "list_all_databases" then wrap (handleListAllDatabases env w)
  else if name = "search_patients" then wrap (handleSearchPatients env args w)
  else if name = "get_appointments" then wrap (handleGetAppointments env args w)
  else if name = "get_transactions" then wrap (handleGetTransactions env args w)
  else ({ isError := true,
          body := .obj [("error", .str ("Unknown tool: " ++ name))] }, w)

/-- Per-table schema entries built by `read_resource`'s loop; a failing
`get_columns` aborts the loop with the raised error. -/
def buildTablesInfo (env : Env) (db : String) : List String → Except String (List JVal)
  | [] => .ok []
  | t :: ts =>
    match env.columnsOf db t with
    | .error e => .error e
    | .ok cols =>
      match buildTablesInfo env db ts with
      | .error e => .error e
      | .ok rest => .ok (JVal.obj [("name", .str t), ("columns", cols)] :: rest)

/-- The body of `read_resource` after the scheme check: connect, list
tables, list columns per table, build the schema document.  Any raised
error is reported to the wrapper. -/
def readResourceInner (env : Env) (db : String) (w : World) : Except String JVal × World :=
  let (rc, w1) := get_connection env db w
  match rc with
  | .error e => (.error e, w1)
  | .ok _ =>
    match env.tablesOf db with
    | .error e => (.error e, w1)
    | .ok ts =>
      match buildTablesInfo env db ts with
      | .error e => (.error e, w1)
      | .ok tinfos =>
          (.ok (.obj [("database", .str db), ("tables", .arr tinfos)]), w1)

/-- Python `uri.startswith(pre)`. -/
def strStartsWith (s pre : String) : Bool := pre.data.isPrefixOf s.data

/-- Left-to-right scan of Python `str.replace`: whenever the pattern is a
prefix of the remaining input, emit the replacement and skip the pattern,
otherwise keep one character; the fuel is the input length (each step
consumes at least one character of a non-empty pattern). -/
def pyReplaceAux (pat rep : List Char) : Nat → List Char → List Char
  | 0, s => s
  | _ + 1, [] => []
  | n + 1, c :: cs =>
    if pat.isPrefixOf (c :: cs) then
      rep ++ pyReplaceAux pat rep n ((c :: cs).drop pat.length)
    else c :: pyReplaceAux pat rep n cs

/-- Python `s.replace(pat, rep)` for a non-empty pattern: replace every
occurrence, scanning left to right. -/
def pyReplace (s pat rep : String) : String :=
  if pat.isEmpty then s
  else String.mk (pyReplaceAux pat.data rep.data s.data.length s.data)

/-- `read_resource(uri)`: a URI without the `filemaker://` scheme raises a
`ValueError` that propagates (modelled as `Except.error`); after the scheme
check every failure is caught and returned as a normal result whose content
is `{error: message}`. -/
def read_resource (env : Env) (uri : String) (w : World) : Except String JVal × World :=
  if strStartsWith uri "filemaker://" then
    let db := pyReplace uri "filemaker://" ""
    match readResourceInner env db w with
    | (.ok v, w1) => (.ok v, w1)
    | (.error e, w1) => (.ok (.obj [("error", .str e)]), w1)
  else (.error ("Invalid URI scheme: " ++ uri), w)

/-- Standard SQL `LIKE` pattern matching as implemented by the SQL engine
the gateway targets: `%` matches any character sequence, `_` any single
character, every other character matches itself. -/
def likeMatch : List Char → List Char → Bool
  | [], s => s.isEmpty
  | p :: ps, s =>
    if p = '%' then (List.range (s.length + 1)).any (fun i => likeMatch ps (s.drop i))
    else if p = '_' then
      match s with
      | [] => false
      | _ :: cs => likeMatch ps cs
    else
      match s with
      | [] => false
      | d :: cs => p == d && likeMatch ps cs

/-- `needle` occurs contiguously inside `hay`. -/
def isSubstringOf (needle hay : List Char) : Bool :=
  (List.range (hay.length + 1)).any (fun i => (hay.drop i).take needle.length == needle)

/-- The initial gateway state: empty registry, no side effects yet. -/
def initWorld : World := ⟨[], 0, [], []⟩

/-- A driver behaviour where everything succeeds and every statement
yields one column and three rows. -/
def envAllOk : Env where
  connect := fun _ => .ok ()
  tablesOf := fun _ => .ok ["T1", "T2"]
  columnsOf := fun _ _ => .ok (.arr [])
  runSQL := fun _ _ _ => .ok (["c"], [[.num 1], [.num 2], [.num 3]])
  runUpdate := fun _ _ _ => .ok 1

/-- A driver behaviour whose statements report a duplicated column name. -/
def envDupCols : Env :=
  { envAllOk with runSQL := fun _ _ _ => .ok (["a", "a"], [[.num 1, .num 2]]) }

/-- A driver behaviour where only the `Email` database is unreachable. -/
def envEmailDown : Env :=
  { envAllOk with connect := fun d => if d = "Email" then .error "unreachable" else .ok () }

/-- A driver behaviour where every connect attempt fails. -/
def envConnFail : Env :=
  { envAllOk with connect := fun _ => .error "driver down" }

section DictLemmas

variable {α : Type}

theorem pyGet_append (a b : List (String × α)) (k : String) :
    pyGet (a ++ b) k = (pyGet a k).or (pyGet b k) := by
  cases h : a.find? (fun p => p.1 == k) <;>
    simp [pyGet, List.find?_append, h, Option.or]

theorem pyGet_singleton_ne (k' k : String) (v : α) (h : k' ≠ k) :
    pyGet [(k', v)] k = none := by
  have hb : (k' == k) = false := beq_eq_false_iff_ne.mpr h
  simp [pyGet, List.find?, hb]

theorem pyGet_pyInsert_self (d : List (String × α)) (k : String) (v : α) :
    pyGet (pyInsert d k v) k = some v := by
  induction d with
  | nil => simp [pyInsert, pyGet, List.find?]
  | cons p ps ih =>
    by_cases h : p.1 = k
    · simp [pyInsert, h, pyGet, List.find?]
    · have hb : (p.1 == k) = false := beq_eq_false_iff_ne.mpr h
      simpa [pyInsert, h, pyGet, List.find?_cons, hb] using ih

theorem pyGet_pyInsert_ne (d : List (String × α)) (k' k : String) (v : α) (h : k' ≠ k) :
    pyGet (pyInsert d k' v) k = pyGet d k := by
  have hb : (k' == k) = false := beq_eq_false_iff_ne.mpr h
  induction d with
  | nil => simp [pyInsert, pyGet, List.find?, hb]
  | cons p ps ih =>
    by_cases hp : p.1 = k'
    · have hpk : (p.1 == k) = false := by
        refine beq_eq_false_iff_ne.mpr ?_
        rw [hp]; exact h
      simp [pyInsert, hp, pyGet, List.find?_cons, hb, hpk]
    · cases hpk : (p.1 == k) with
      | true => simp [pyInsert, hp, pyGet, List.find?_cons, hpk]
      | false => simpa [pyInsert, hp, pyGet, List.find?_cons, hpk] using ih

theorem pyDict_concat (l : List (String × α)) (k : String) (v : α) :
    pyDict (l ++ [(k, v)]) = pyInsert (pyDict l) k v := by
  simp [pyDict, List.foldl_append]

/-- Python-dict semantics of `dict(pairs)`: looking up a key returns the
value of its last occurrence in the pair list (later occurrences
overwrite earlier ones). -/
theorem pyGet_pyDict_eq_lastVal (l : List (String × α)) (k : String) :
    pyGet (pyDict l) k = lastVal l k := by
  induction l using List.reverseRecOn with
  | nil => simp [pyDict, pyGet, lastVal]
  | append_singleton l p ih =>
    obtain ⟨k', v'⟩ := p
    rw [pyDict_concat]
    by_cases h : k' = k
    · subst h
      rw [pyGet_pyInsert_self]
      simp [lastVal, List.filter_append, List.getLast?_concat]
    · rw [pyGet_pyInsert_ne _ _ _ _ h, ih]
      simp [lastVal, List.filter_append, h]

theorem pyGet_map_self {β : Type} (f : String → β) :
    ∀ (l : List String) (k : String), k ∈ l →
      pyGet (l.map (fun x => (x, f x))) k = some (f k) := by
  intro l
  induction l with
  | nil => intro k hk; cases hk
  | cons x xs ih =>
    intro k hk
    by_cases hxk : x = k
    · subst hxk
      simp [pyGet, List.find?_cons]
    · rcases List.mem_cons.mp hk with h1 | h2
      · exact absurd h1.symm hxk
      · simpa [pyGet, List.find?_cons, hxk] using ih k h2

end DictLemmas

/-- C1: `executeRead` (`execute_query`) hands the caller's SQL text to the
driver verbatim — the trace records exactly the caller-supplied statement,
never one rewritten with a limiting clause — and for any limit the
returned row sequence (the fetch-stage `fetchmany(limit)` bound) has
length at most `limit`. -/
theorem executeRead_verbatim_sql_and_limit (env : Env) (db q : String)
    (params : Option (List JVal)) (lim : Nat) (w : World) :
    ((execute_query env db q params lim w).2).executedSQL
      = w.executedSQL ++ [(db, q, normParams params)]
    ∧ ∀ rows, (execute_query env db q params lim w).1 = Except.ok rows →
        rows.length ≤ lim := by
  constructor
  · cases h : env.runSQL db q (normParams params) <;> simp [execute_query, h]
  · intro rows hr
    cases h : env.runSQL db q (normParams params) with
    | error e => simp [execute_query, h] at hr
    | ok cr =>
      obtain ⟨cols, raw⟩ := cr
      simp [execute_query, h] at hr
      subst hr
      simp [List.length_take]

theorem executeRead_verbatim_sql_and_limit_witness :
    ((execute_query envAllOk "Open" "SELECT * FROM T" none 2 initWorld).2).executedSQL
      = [("Open", "SELECT * FROM T", none)]
    ∧ [[("c", JVal.num 1)], [("c", JVal.num 2)]].length ≤ 2 := by
  have h := executeRead_verbatim_sql_and_limit envAllOk "Open" "SELECT * FROM T" none 2 initWorld
  exact ⟨h.1, h.2 [[("c", JVal.num 1)], [("c", JVal.num 2)]] rfl⟩

/-- C8: each row returned by `execute_query` is built as
`dict(zip(columns, row))` — a position-based zip of the driver's column
descriptors with the row values, in order — and for a Python dict built
from a pair list, a duplicated key takes the value of its last occurrence
(later occurrences overwrite earlier ones). -/
theorem executeRead_row_zip_last_wins (env : Env) (db q : String)
    (params : Option (List JVal)) (lim : Nat) (w : World)
    (cols : List String) (rows : List (List JVal))
    (hrun : env.runSQL db q (normParams params) = Except.ok (cols, rows)) :
    (execute_query env db q params lim w).1
      = Except.ok ((rows.take lim).map (fun r => pyDict (cols.zip r)))
    ∧ ∀ (l : List (String × JVal)) (k : String), pyGet (pyDict l) k = lastVal l k := by
  refine ⟨by simp [execute_query, hrun], fun l k => pyGet_pyDict_eq_lastVal l k⟩

theorem executeRead_row_zip_last_wins_witness :
    (execute_query envDupCols "Open" "SELECT a, a FROM T" none 5 initWorld).1
      = Except.ok [[("a", JVal.num 2)]]
    ∧ pyGet (pyDict [("a", JVal.num 1), ("a", JVal.num 2)]) "a" = some (JVal.num 2) := by
  have h := executeRead_row_zip_last_wins envDupCols "Open" "SELECT a, a FROM T"
    none 5 initWorld ["a", "a"] [[JVal.num 1, JVal.num 2]] rfl
  refine ⟨by rw [h.1]; rfl, ?_⟩
  rw [h.2]
  rfl

/-- C3: a second `get_connection` call for the same database name returns
the very same connection id with the world unchanged (so no new driver
connect or authentication happens), and the registry holds at most one
entry for that name afterwards (it never gains a duplicate). -/
theorem getConnection_idempotent (env1 env2 : Env) (db : String) (w w1 : World) (c : Nat)
    (h : get_connection env1 db w = (Except.ok c, w1)) :
    get_connection env2 db w1 = (Except.ok c, w1)
    ∧ w1.registry.countP (fun p => p.1 == db)
        ≤ max 1 (w.registry.countP (fun p => p.1 == db)) := by
  cases hx : pyGet w.registry db with
  | some c' =>
    simp only [get_connection, hx] at h
    obtain ⟨h1, h2⟩ := Prod.ext_iff.mp h
    simp only [] at h1 h2
    have hc : c' = c := by
      cases h1
      rfl
    subst hc
    subst h2
    refine ⟨?_, le_max_right _ _⟩
    simp only [get_connection, hx]
  | none =>
    simp only [get_connection, hx] at h
    cases hc : env1.connect db with
    | error e =>
      simp only [hc] at h
      obtain ⟨h1, _⟩ := Prod.ext_iff.mp h
      simp at h1
    | ok u =>
      simp only [hc] at h
      obtain ⟨h1, h2⟩ := Prod.ext_iff.mp h
      dsimp only at h1 h2
      have hcid : w.nextId = c := by
        cases h1
        rfl
      have hfind : w.registry.find? (fun p => p.1 == db) = none := by
        cases hf : w.registry.find? (fun p => p.1 == db) with
        | none => rfl
        | some p => simp [pyGet, hf] at hx
      have hget : pyGet (w.registry ++ [(db, w.nextId)]) db = some w.nextId := by
        rw [pyGet_append]
        simp [pyGet, hx, List.find?, Option.or, hfind]
      constructor
      · rw [← h2, hcid]
        simp only [get_connection]
        rw [← hcid]
        simp only [hget]
      · have hzero : w.registry.countP (fun p => p.1 == db) = 0 :=
          List.countP_eq_zero.mpr (List.find?_eq_none.mp hfind)
        rw [← h2]
        simp only [List.countP_append, hzero, List.countP_cons]
        simp

theorem getConnection_idempotent_witness :
    get_connection envAllOk "Open"
        ((get_connection envAllOk "Open" initWorld).2)
      = (Except.ok 0, (get_connection envAllOk "Open" initWorld).2)
    ∧ ((get_connection envAllOk "Open" initWorld).2).registry.countP
        (fun p => p.1 == "Open") ≤ max 1 (initWorld.registry.countP (fun p => p.1 == "Open")) := by
  exact getConnection_idempotent envAllOk envAllOk "Open" initWorld
    ((get_connection envAllOk "Open" initWorld).2) 0 rfl

/-- C9: if the driver connect raises while `get_connection` is creating a
connection for a name not yet in the registry, the registry is left
unchanged (no entry is cached for that name), and a subsequent call for
the same name performs a fresh connect attempt (and succeeds when the
driver now accepts), rather than returning a broken cached handle. -/
theorem getConnection_failure_not_cached (env1 env2 : Env) (db : String) (w : World) (e : String)
    (hnone : pyGet w.registry db = none)
    (hfail : env1.connect db = Except.error e)
    (hok : env2.connect db = Except.ok ()) :
    (get_connection env1 db w).1 = Except.error e
    ∧ ((get_connection env1 db w).2).registry = w.registry
    ∧ (get_connection env2 db ((get_connection env1 db w).2)).1
        = Except.ok ((get_connection env1 db w).2).nextId
    ∧ ((get_connection env2 db ((get_connection env1 db w).2)).2).connectAttempts
        = w.connectAttempts ++ [db] ++ [db] := by
  simp [get_connection, hnone, hfail, hok]

theorem getConnection_failure_not_cached_witness :
    (get_connection envConnFail "Open" initWorld).1 = Except.error "driver down"
    ∧ ((get_connection envConnFail "Open" initWorld).2).registry = initWorld.registry
    ∧ (get_connection envAllOk "Open" ((get_connection envConnFail "Open" initWorld).2)).1
        = Except.ok ((get_connection envConnFail "Open" initWorld).2).nextId
    ∧ ((get_connection envAllOk "Open" ((get_connection envConnFail "Open" initWorld).2)).2).connectAttempts
        = initWorld.connectAttempts ++ ["Open"] ++ ["Open"] :=
  getConnection_failure_not_cached envConnFail envAllOk "Open" initWorld "driver down"
    rfl rfl rfl

/-- The entry `list_all_databases` produces for one database, as a function
of the registry contents at the start of the call: a bare `{error: m}` when
the database is unreachable (not cached and connect fails) or its table
listing fails, otherwise the table list with its count. -/
def dbEntry (env : Env) (r : List (String × Nat)) (db : String) : JVal :=
  match pyGet r db, env.connect db with
  | none, Except.error e => .obj [("error", .str e)]
  | _, _ =>
    match env.tablesOf db with
    | .error e => .obj [("error", .str e)]
    | .ok ts => .obj [("tables", .arr (ts.map JVal.str)), ("count", .num ts.length)]

/-- The entry consists of a single `error` field. -/
def entryIsError : JVal → Bool
  | .obj [("error", _)] => true
  | _ => false

/-- The entry carries the database's table list (and its count). -/
def entryIsTables : JVal → Bool
  | .obj [("tables", _), ("count", _)] => true
  | _ => false

theorem dbEntry_error_or_tables (env : Env) (r : List (String × Nat)) (db : String) :
    entryIsError (dbEntry env r db) = true ∨ entryIsTables (dbEntry env r db) = true := by
  unfold dbEntry
  cases pyGet r db <;> cases env.connect db <;> cases env.tablesOf db <;>
    simp [entryIsError, entryIsTables]

/-- The `list_all_databases` fold visits every catalog entry and appends,
for each, exactly the entry `dbEntry` describes; a failing database
contributes its own error entry without disturbing the others. -/
theorem listAll_fold_info (env : Env) :
    ∀ (dbs : List String) (w : World) (info0 : List (String × JVal)) (r0 : List (String × Nat)),
      (∀ db ∈ dbs, pyGet w.registry db = pyGet r0 db) → dbs.Nodup →
      (dbs.foldl (listAllStep env) (info0, w)).1
        = info0 ++ dbs.map (fun db => (db, dbEntry env r0 db)) := by
  intro dbs
  induction dbs with
  | nil => intro w info0 r0 _ _; simp
  | cons db rest ih =>
    intro w info0 r0 h hn
    have hdb : pyGet w.registry db = pyGet r0 db := h db (List.mem_cons_self db rest)
    have hrest : ∀ d ∈ rest, pyGet w.registry d = pyGet r0 d :=
      fun d hd => h d (List.mem_cons_of_mem db hd)
    have hnrest : rest.Nodup := (List.nodup_cons.mp hn).2
    have hnin : db ∉ rest := (List.nodup_cons.mp hn).1
    rw [List.foldl_cons]
    cases hg : pyGet w.registry db with
    | some cid =>
      have hstep : listAllStep env (info0, w) db
          = (info0 ++ [(db, dbEntry env r0 db)], w) := by
        simp only [listAllStep, get_connection, hg, dbEntry, ← hdb, hg]
        cases env.tablesOf db <;> simp
      rw [hstep, ih w _ r0 hrest hnrest, List.append_assoc]
      simp
    | none =>
      cases hc : env.connect db with
      | error e =>
        have hstep : listAllStep env (info0, w) db
            = (info0 ++ [(db, dbEntry env r0 db)],
               { w with connectAttempts := w.connectAttempts ++ [db] }) := by
          simp only [listAllStep, get_connection, hg, hc, dbEntry, ← hdb, hg]
        have hrest2 : ∀ d ∈ rest,
            pyGet ({ w with connectAttempts := w.connectAttempts ++ [db] } : World).registry d
              = pyGet r0 d := hrest
        rw [hstep, ih _ _ r0 hrest2 hnrest, List.append_assoc]
        simp
      | ok u =>
        have hstep : listAllStep env (info0, w) db
            = (info0 ++ [(db, dbEntry env r0 db)],
               { w with registry := w.registry ++ [(db, w.nextId)],
                        nextId := w.nextId + 1,
                        connectAttempts := w.connectAttempts ++ [db] }) := by
          simp only [listAllStep, get_connection, hg, hc, dbEntry, ← hdb, hg]
          cases env.tablesOf db <;> simp
        have hrest2 : ∀ d ∈ rest,
            pyGet ({ w with registry := w.registry ++ [(db, w.nextId)],
                            nextId := w.nextId + 1,
                            connectAttempts := w.connectAttempts ++ [db] } : World).registry d
              = pyGet r0 d := by
          intro d hd
          show pyGet (w.registry ++ [(db, w.nextId)]) d = pyGet r0 d
          rw [pyGet_append, pyGet_singleton_ne db d w.nextId
            (fun hEq => hnin (hEq ▸ hd)), Option.or_none]
          exact hrest d hd
        rw [hstep, ih _ _ r0 hrest2 hnrest, List.append_assoc]
        simp

/-- C2: when exactly one database in the fixed catalog fails (its
connection or table listing), `list_all_databases` still returns the
overall `success:true` envelope; the failing database's entry is a bare
`{error: message}` object while every other database's entry carries its
table list — no single failure aborts or suppresses the rest. -/
theorem listAllDatabases_partial_failure (env : Env) (w : World) (args : Args) (bad : String)
    (hbad : bad ∈ FILEMAKER_DATABASES)
    (hchar : ∀ db ∈ FILEMAKER_DATABASES,
      (entryIsError (dbEntry env w.registry db) = true ↔ db = bad)) :
    ∃ info w',
      callTool env "list_all_databases" args w
        = ({ isError := false,
             body := .obj [("success", .bool true), ("databases", .obj info)] }, w')
      ∧ pyGet info bad = some (dbEntry env w.registry bad)
      ∧ entryIsError (dbEntry env w.registry bad) = true
      ∧ ∀ db ∈ FILEMAKER_DATABASES, db ≠ bad →
          pyGet info db = some (dbEntry env w.registry db)
          ∧ entryIsTables (dbEntry env w.registry db) = true := by
  have hinfo := listAll_fold_info env FILEMAKER_DATABASES w [] w.registry
    (fun _ _ => rfl) (by decide)
  have hct : callTool env "list_all_databases" args w
      = ({ isError := false,
           body := .obj [("success", .bool true),
                         ("databases",
                          .obj (FILEMAKER_DATABASES.foldl (listAllStep env) ([], w)).1)] },
         (FILEMAKER_DATABASES.foldl (listAllStep env) ([], w)).2) := by
    simp [callTool, handleListAllDatabases, wrap]
  refine ⟨(FILEMAKER_DATABASES.foldl (listAllStep env) ([], w)).1,
          (FILEMAKER_DATABASES.foldl (listAllStep env) ([], w)).2, hct, ?_, ?_, ?_⟩
  · rw [hinfo]
    simpa using pyGet_map_self (fun db => dbEntry env w.registry db)
      FILEMAKER_DATABASES bad hbad
  · exact (hchar bad hbad).mpr rfl
  · intro db hdb hne
    refine ⟨?_, ?_⟩
    · rw [hinfo]
      simpa using pyGet_map_self (fun d => dbEntry env w.registry d)
        FILEMAKER_DATABASES db hdb
    · rcases dbEntry_error_or_tables env w.registry db with he | ht
      · exact absurd ((hchar db hdb).mp he) hne
      · exact ht

theorem listAllDatabases_partial_failure_witness :
    ∃ info w',
      callTool envEmailDown "list_all_databases" [] initWorld
        = ({ isError := false,
             body := .obj [("success", .bool true), ("databases", .obj info)] }, w')
      ∧ pyGet info "Email" = some (dbEntry envEmailDown initWorld.registry "Email")
      ∧ entryIsError (dbEntry envEmailDown initWorld.registry "Email") = true
      ∧ ∀ db ∈ FILEMAKER_DATABASES, db ≠ "Email" →
          pyGet info db = some (dbEntry envEmailDown initWorld.registry db)
          ∧ entryIsTables (dbEntry envEmailDown initWorld.registry db) = true :=
  listAllDatabases_partial_failure envEmailDown initWorld [] "Email"
    (by decide) (by decide)

/-- The ordinary failed-operation envelope shape (`success:false` plus an
error message), as produced by the router's exception handler. -/
def isFailEnvelope : JVal → Bool
  | .obj (("success", .bool false) :: _) => true
  | _ => false

/-- C4: for every operation of the fixed catalog, an argument bundle
missing at least one schema-required argument makes the router fail with
the missing-key error envelope, and the world is unchanged: no connection
was attempted and no SQL was handed to the driver (the failure happens
before any SQL is built). -/
theorem missing_required_arg_fails_before_connection (env : Env) (name : String)
    (args : Args) (w : World)
    (hname : name ∈ opCatalog)
    (hmiss : ∃ r, r ∈ requiredArgs name ∧ pyGet args r = none) :
    ∃ msg, callTool env name args w
      = ({ isError := true,
           body := .obj [("success", .bool false), ("error", .str msg)] }, w) := by
  obtain ⟨r, hr, hnone⟩ := hmiss
  simp only [opCatalog, List.mem_cons, List.not_mem_nil, or_false] at hname
  rcases hname with rfl | rfl | rfl | rfl | rfl | rfl | rfl | rfl | rfl
  · -- query
    simp only [requiredArgs, List.mem_cons, List.not_mem_nil, or_false] at hr
    rcases hr with rfl | rfl
    · exact ⟨"'database'", by simp [callTool, handleQuery, getArg, hnone, wrap]⟩
    · cases hdb : pyGet args "database" with
      | none => exact ⟨"'database'", by simp [callTool, handleQuery, getArg, hdb, wrap]⟩
      | some v =>
        exact ⟨"'sql'", by simp [callTool, handleQuery, getArg, hdb, hnone, wrap]⟩
  · -- list_tables
    simp only [requiredArgs, List.mem_cons, List.not_mem_nil, or_false] at hr
    rcases hr with rfl
    exact ⟨"'database'", by simp [callTool, handleListTables, getArg, hnone, wrap]⟩
  · -- describe_table
    simp only [requiredArgs, List.mem_cons, List.not_mem_nil, or_false] at hr
    rcases hr with rfl | rfl
    · exact ⟨"'database'", by simp [callTool, handleDescribeTable, getArg, hnone, wrap]⟩
    · cases hdb : pyGet args "database" with
      | none => exact ⟨"'database'", by simp [callTool, handleDescribeTable, getArg, hdb, wrap]⟩
      | some v =>
        exact ⟨"'table'", by simp [callTool, handleDescribeTable, getArg, hdb, hnone, wrap]⟩
  · -- insert_record
    simp only [requiredArgs, List.mem_cons, List.not_mem_nil, or_false] at hr
    rcases hr with rfl | rfl | rfl
    · exact ⟨"'database'", by simp [callTool, handleInsertRecord, getArg, hnone, wrap]⟩
    · cases hdb : pyGet args "database" with
      | none => exact ⟨"'database'", by simp [callTool, handleInsertRecord, getArg, hdb, wrap]⟩
      | some v =>
        exact ⟨"'table'", by simp [callTool, handleInsertRecord, getArg, hdb, hnone, wrap]⟩
    · cases hdb : pyGet args "database" with
      | none => exact ⟨"'database'", by simp [callTool, handleInsertRecord, getArg, hdb, wrap]⟩
      | some v =>
        cases htb : pyGet args "table" with
        | none =>
          exact ⟨"'table'", by simp [callTool, handleInsertRecord, getArg, hdb, htb, wrap]⟩
        | some v2 =>
          exact ⟨"'data'", by simp [callTool, handleInsertRecord, getArg, hdb, htb, hnone, wrap]⟩
  · -- update_record
    simp only [requiredArgs, List.mem_cons, List.not_mem_nil, or_false] at hr
    rcases hr with rfl | rfl | rfl | rfl
    · exact ⟨"'database'", by simp [callTool, handleUpdateRecord, getArg, hnone, wrap]⟩
    · cases hdb : pyGet args "database" with
      | none => exact ⟨"'database'", by simp [callTool, handleUpdateRecord, getArg, hdb, wrap]⟩
      | some v =>
        exact ⟨"'table'", by simp [callTool, handleUpdateRecord, getArg, hdb, hnone, wrap]⟩
    · cases hdb : pyGet args "database" with
      | none => exact ⟨"'database'", by simp [callTool, handleUpdateRecord, getArg, hdb, wrap]⟩
      | some v =>
        cases htb : pyGet args "table" with
        | none =>
          exact ⟨"'table'", by simp [callTool, handleUpdateRecord, getArg, hdb, htb, wrap]⟩
        | some v2 =>
          exact ⟨"'data'", by simp [callTool, handleUpdateRecord, getArg, hdb, htb, hnone, wrap]⟩
    · cases hdb : pyGet args "database" with
      | none => exact ⟨"'database'", by simp [callTool, handleUpdateRecord, getArg, hdb, wrap]⟩
      | some v =>
        cases htb : pyGet args "table" with
        | none =>
          exact ⟨"'table'", by simp [callTool, handleUpdateRecord, getArg, hdb, htb, wrap]⟩
        | some v2 =>
          cases hdt : pyGet args "data" with
          | none =>
            exact ⟨"'data'", by simp [callTool, handleUpdateRecord, getArg, hdb, htb, hdt, wrap]⟩
          | some v3 =>
            exact ⟨"'where'",
              by simp [callTool, handleUpdateRecord, getArg, hdb, htb, hdt, hnone, wrap]⟩
  · -- list_all_databases: no required arguments
    have hempty : requiredArgs "list_all_databases" = [] := rfl
    rw [hempty] at hr
    cases hr
  · -- search_patients
    simp only [requiredArgs, List.mem_cons, List.not_mem_nil, or_false] at hr
    rcases hr with rfl
    exact ⟨"'search_term'", by simp [callTool, handleSearchPatients, getArg, hnone, wrap]⟩
  · -- get_appointments
    simp only [requiredArgs, List.mem_cons, List.not_mem_nil, or_false] at hr
    rcases hr with rfl
    exact ⟨"'date'", by simp [callTool, handleGetAppointments, getArg, hnone, wrap]⟩
  · -- get_transactions: no required arguments
    have hempty : requiredArgs "get_transactions" = [] := rfl
    rw [hempty] at hr
    cases hr

theorem missing_required_arg_fails_before_connection_witness :
    ∃ msg, callTool envAllOk "query" [] initWorld
      = ({ isError := true,
           body := .obj [("success", .bool false), ("error", .str msg)] }, initWorld) :=
  missing_required_arg_fails_before_connection envAllOk "query" [] initWorld
    (by decide) ⟨"database", by decide, rfl⟩

/-- C5: an operation name outside the fixed catalog produces the
error-flagged bare `{error: "Unknown tool: ..."}` response — a shape
distinct from the ordinary `success:false` failure envelope — and the
world is unchanged, so no connection is opened as a side effect. -/
theorem unknown_tool_error_flagged (env : Env) (name : String) (args : Args) (w : World)
    (h : name ∉ opCatalog) :
    callTool env name args w
      = ({ isError := true,
           body := .obj [("error", .str ("Unknown tool: " ++ name))] }, w)
    ∧ isFailEnvelope (.obj [("error", .str ("Unknown tool: " ++ name))]) = false := by
  have h9 : ¬(name = "query" ∨ name = "list_tables" ∨ name = "describe_table"
      ∨ name = "insert_record" ∨ name = "update_record" ∨ name = "list_all_databases"
      ∨ name = "search_patients" ∨ name = "get_appointments"
      ∨ name = "get_transactions") := by
    simpa [opCatalog] using h
  push_neg at h9
  obtain ⟨h1, h2, h3, h4, h5, h6, h7, h8, h9'⟩ := h9
  exact ⟨by simp [callTool, h1, h2, h3, h4, h5, h6, h7, h8, h9'], rfl⟩

theorem unknown_tool_error_flagged_witness :
    callTool envAllOk "drop_table" [] initWorld
      = ({ isError := true,
           body := .obj [("error", .str ("Unknown tool: " ++ "drop_table"))] }, initWorld)
    ∧ isFailEnvelope (.obj [("error", .str ("Unknown tool: " ++ "drop_table"))]) = false :=
  unknown_tool_error_flagged envAllOk "drop_table" [] initWorld (by decide)

theorem wrap_snd (x : Except String JVal × World) : (wrap x).2 = x.2 := by
  obtain ⟨r, w⟩ := x
  cases r <;> rfl

theorem normParams_cons (x : JVal) (xs : List JVal) :
    normParams (some (x :: xs)) = some (x :: xs) := rfl

theorem normParams_none : normParams none = none := rfl

/-- C6 counterexample: with no escaping, the parameter the handler binds
for the search term `Sm%th` is `%Sm%th%`, and under SQL `LIKE` semantics it
matches `Smith` — a string that does not contain `Sm%th` as a literal
substring.  The inner `%` therefore acts as a caller-controlled wildcard,
not as a literal substring character. -/
theorem searchPatients_literal_substring_counterexample :
    likeMatch (searchPatientsParam "Sm%th").toList "Smith".toList = true
    ∧ isSubstringOf "Sm%th".toList "Smith".toList = false := by decide

/-- C6 (amended): `search_patients` builds the fixed-column SELECT against
the pinned `Patients` table with a `LIKE ?` predicate, binding exactly
`'%' ++ term ++ '%'` as the parameter with no additional escaping of the
term — so a `%` inside the term keeps its `LIKE` wildcard meaning (it is
not matched as a literal substring character). -/
theorem searchPatients_like_param_unescaped (env : Env) (args : Args) (w : World) (term : String)
    (hterm : pyGet args "search_term" = some (.str term))
    (hfield : pyGet args "field" = none)
    (hconn : env.connect "Patients" = Except.ok ()) :
    ∃ res w', callTool env "search_patients" args w = (res, w')
      ∧ w'.executedSQL = w.executedSQL
          ++ [("Patients", searchPatientsSQL "\"Last Name\"",
               some [.str (searchPatientsParam term)])]
      ∧ searchPatientsParam term = "%" ++ term ++ "%"
      ∧ likeMatch (searchPatientsParam "Sm%th").toList "Smith".toList = true
      ∧ isSubstringOf "Sm%th".toList "Smith".toList = false := by
  refine ⟨(wrap (handleSearchPatients env args w)).1,
          (wrap (handleSearchPatients env args w)).2,
          by simp [callTool], ?_, rfl, by decide, by decide⟩
  rw [wrap_snd]
  simp only [handleSearchPatients, getArg, hterm, hfield, JVal.asStr]
  cases hreg : pyGet w.registry "Patients" with
  | some cid =>
    simp only [get_connection, hreg, execute_query, normParams_cons]
    cases hrun : env.runSQL "Patients" (searchPatientsSQL "\"Last Name\"")
        (some [JVal.str (searchPatientsParam term)]) with
    | error e => simp [hrun]
    | ok pr =>
      obtain ⟨cols, rows⟩ := pr
      simp [hrun]
  | none =>
    simp only [get_connection, hreg, hconn, execute_query, normParams_cons]
    cases hrun : env.runSQL "Patients" (searchPatientsSQL "\"Last Name\"")
        (some [JVal.str (searchPatientsParam term)]) with
    | error e => simp [hrun]
    | ok pr =>
      obtain ⟨cols, rows⟩ := pr
      simp [hrun]

theorem searchPatients_like_param_unescaped_witness :
    ∃ res w', callTool envAllOk "search_patients"
        [("search_term", JVal.str "Sm%th")] initWorld = (res, w')
      ∧ w'.executedSQL = initWorld.executedSQL
          ++ [("Patients", searchPatientsSQL "\"Last Name\"",
               some [.str (searchPatientsParam "Sm%th")])]
      ∧ searchPatientsParam "Sm%th" = "%" ++ "Sm%th" ++ "%"
      ∧ likeMatch (searchPatientsParam "Sm%th").toList "Smith".toList = true
      ∧ isSubstringOf "Sm%th".toList "Smith".toList = false :=
  searchPatients_like_param_unescaped envAllOk
    [("search_term", JVal.str "Sm%th")] initWorld "Sm%th" rfl rfl rfl

/-- C7: `get_transactions` with none of `patient_id`, `start_date`,
`end_date` supplied builds a `SELECT` with no `WHERE` clause, passes no
parameters, does not raise, and returns the `success:true` envelope
with at most `limit` rows; when all three filters are supplied the
predicates are AND-joined in the order patient-id equality, start-date
lower bound, end-date upper bound. -/
theorem getTransactions_predicates (env : Env) (w : World) (args : Args)
    (cols : List String) (rows : List (List JVal))
    (hconn : env.connect "Transactions" = Except.ok ())
    (hrun : ∀ sql p, env.runSQL "Transactions" sql p = Except.ok (cols, rows)) :
    (pyGet args "patient_id" = none → pyGet args "start_date" = none →
     pyGet args "end_date" = none →
      ∃ w', callTool env "get_transactions" args w
          = ({ isError := false,
               body := queryEnvelope ((rows.take (getNatD args "limit" 100)).map
                         (fun r => pyDict (cols.zip r))) }, w')
        ∧ w'.executedSQL
            = w.executedSQL ++ [("Transactions", "SELECT * FROM Transactions", none)]
        ∧ ((rows.take (getNatD args "limit" 100)).map
             (fun r => pyDict (cols.zip r))).length ≤ getNatD args "limit" 100)
    ∧ (∀ (args2 : Args) (p s e : String),
        pyGet args2 "patient_id" = some (.str p) → p.isEmpty = false →
        pyGet args2 "start_date" = some (.str s) → s.isEmpty = false →
        pyGet args2 "end_date" = some (.str e) → e.isEmpty = false →
        ∃ w', callTool env "get_transactions" args2 w
          = ({ isError := false,
               body := queryEnvelope ((rows.take (getNatD args2 "limit" 100)).map
                         (fun r => pyDict (cols.zip r))) }, w')
          ∧ w'.executedSQL = w.executedSQL
              ++ [("Transactions",
                   "SELECT * FROM Transactions WHERE \"patient id#\" = ? AND \"trans date\" >= ? AND \"trans date\" <= ?",
                   some [.str p, .str s, .str e])]) := by
  constructor
  · intro hpi hsd hed
    have hct : callTool env "get_transactions" args w
        = wrap (handleGetTransactions env args w) := by
      simp [callTool]
    cases hreg : pyGet w.registry "Transactions" with
    | some cid =>
      refine ⟨{ w with executedSQL
                  := w.executedSQL ++ [("Transactions", "SELECT * FROM Transactions", none)] },
              ?_, rfl, by simp [List.length_take]⟩
      rw [hct]
      simp only [handleGetTransactions, getTruthyStr, hpi, hsd, hed]
      simp only [get_connection, hreg, execute_query]
      simp [hrun, wrap, normParams_none]
    | none =>
      refine ⟨{ w with registry := w.registry ++ [("Transactions", w.nextId)],
                       nextId := w.nextId + 1,
                       connectAttempts := w.connectAttempts ++ ["Transactions"],
                       executedSQL
                  := w.executedSQL ++ [("Transactions", "SELECT * FROM Transactions", none)] },
              ?_, rfl, by simp [List.length_take]⟩
      rw [hct]
      simp only [handleGetTransactions, getTruthyStr, hpi, hsd, hed]
      simp only [get_connection, hreg, hconn, execute_query]
      simp [hrun, wrap, normParams_none]
  · intro args2 p s e hpi hpe hsd hse hed hee
    have hct : callTool env "get_transactions" args2 w
        = wrap (handleGetTransactions env args2 w) := by
      simp [callTool]
    cases hreg : pyGet w.registry "Transactions" with
    | some cid =>
      refine ⟨{ w with executedSQL := w.executedSQL
                  ++ [("Transactions",
                       "SELECT * FROM Transactions WHERE \"patient id#\" = ? AND \"trans date\" >= ? AND \"trans date\" <= ?",
                       some [.str p, .str s, .str e])] },
              ?_, rfl⟩
      rw [hct]
      simp only [handleGetTransactions, getTruthyStr, hpi, hsd, hed, hpe, hse, hee]
      simp only [get_connection, hreg, execute_query]
      simp [hrun, wrap, normParams_cons, strJoin]
    | none =>
      refine ⟨{ w with registry := w.registry ++ [("Transactions", w.nextId)],
                       nextId := w.nextId + 1,
                       connectAttempts := w.connectAttempts ++ ["Transactions"],
                       executedSQL := w.executedSQL
                  ++ [("Transactions",
                       "SELECT * FROM Transactions WHERE \"patient id#\" = ? AND \"trans date\" >= ? AND \"trans date\" <= ?",
                       some [.str p, .str s, .str e])] },
              ?_, rfl⟩
      rw [hct]
      simp only [handleGetTransactions, getTruthyStr, hpi, hsd, hed, hpe, hse, hee]
      simp only [get_connection, hreg, hconn, execute_query]
      simp [hrun, wrap, normParams_cons, strJoin]

theorem getTransactions_predicates_witness :
    (∃ w', callTool envAllOk "get_transactions" [] initWorld
        = ({ isError := false,
             body := queryEnvelope (([[JVal.num 1], [JVal.num 2], [JVal.num 3]].take
                       (getNatD [] "limit" 100)).map
                       (fun r => pyDict (["c"].zip r))) }, w')
      ∧ w'.executedSQL
          = initWorld.executedSQL ++ [("Transactions", "SELECT * FROM Transactions", none)]
      ∧ ((([[JVal.num 1], [JVal.num 2], [JVal.num 3]].take (getNatD [] "limit" 100)).map
           (fun r => pyDict (["c"].zip r))).length ≤ getNatD [] "limit" 100))
    ∧ (∃ w', callTool envAllOk "get_transactions"
          [("patient_id", JVal.str "P1"), ("start_date", JVal.str "2020-01-01"),
           ("end_date", JVal.str "2020-02-01")] initWorld
        = ({ isError := false,
             body := queryEnvelope (([[JVal.num 1], [JVal.num 2], [JVal.num 3]].take
                       (getNatD [("patient_id", JVal.str "P1"), ("start_date", JVal.str "2020-01-01"),
                                 ("end_date", JVal.str "2020-02-01")] "limit" 100)).map
                       (fun r => pyDict (["c"].zip r))) }, w')
      ∧ w'.executedSQL = initWorld.executedSQL
          ++ [("Transactions",
               "SELECT * FROM Transactions WHERE \"patient id#\" = ? AND \"trans date\" >= ? AND \"trans date\" <= ?",
               some [.str "P1", .str "2020-01-01", .str "2020-02-01"])]) := by
  have h := getTransactions_predicates envAllOk initWorld []
    ["c"] [[JVal.num 1], [JVal.num 2], [JVal.num 3]] rfl (fun _ _ => rfl)
  exact ⟨h.1 rfl rfl rfl,
         h.2 [("patient_id", JVal.str "P1"), ("start_date", JVal.str "2020-01-01"),
              ("end_date", JVal.str "2020-02-01")]
           "P1" "2020-01-01" "2020-02-01" rfl rfl rfl rfl rfl rfl⟩

/-- C10: a resource URI that does not begin with `filemaker://` makes
`read_resource` raise (the error propagates to the caller), while with the
scheme present the call always returns a normal result — and whenever the
post-scheme body fails (connection, table listing or column listing), the
returned content is exactly the `{error: message}` document. -/
theorem readResource_scheme_error_boundary (env : Env) (uri : String) (w : World) :
    (strStartsWith uri "filemaker://" = false →
      read_resource env uri w = (Except.error ("Invalid URI scheme: " ++ uri), w))
    ∧ (strStartsWith uri "filemaker://" = true →
        (∃ v w', read_resource env uri w = (Except.ok v, w'))
        ∧ ∀ e w', readResourceInner env (pyReplace uri "filemaker://" "") w
              = (Except.error e, w') →
            read_resource env uri w = (Except.ok (.obj [("error", .str e)]), w')) := by
  constructor
  · intro h
    simp [read_resource, h]
  · intro h
    constructor
    · rcases hin : readResourceInner env (pyReplace uri "filemaker://" "") w with ⟨r, w'⟩
      cases r with
      | ok v => exact ⟨v, w', by simp [read_resource, h, hin]⟩
      | error e => exact ⟨.obj [("error", .str e)], w', by simp [read_resource, h, hin]⟩
    · intro e w' hin
      simp [read_resource, h, hin]

theorem readResource_scheme_error_boundary_witness :
    read_resource envConnFail "mailto:x" initWorld
      = (Except.error ("Invalid URI scheme: " ++ "mailto:x"), initWorld)
    ∧ read_resource envConnFail "filemaker://Open" initWorld
      = (Except.ok (.obj [("error", .str "driver down")]),
         { initWorld with connectAttempts := ["Open"] }) := by
  refine ⟨(readResource_scheme_error_boundary envConnFail "mailto:x" initWorld).1 rfl, ?_⟩
  exact ((readResource_scheme_error_boundary envConnFail "filemaker://Open" initWorld).2
    rfl).2 "driver down" { initWorld with connectAttempts := ["Open"] } rfl

end FMGateway

